import Mathlib

/-!
Verification of the dis_snek excerpt: entity model (Asset, CustomEmoji, Sticker),
payload handling and the Scale grouping component.

Each Python source construct is shallowly embedded as an executable Lean
definition; stateful code is embedded as explicit state passing, raising code
returns an error value next to the (possibly partially mutated) state, and the
HTTP / cache collaborators are passed in explicitly (as oracle functions or as
recorded call traces), following the collaborator contracts of the spec.
-/

namespace DisSnek

/-- Python exceptions raised by the embedded code. `valueError` covers the
spec's `ValidationError` / `PreconditionError` taxonomy (the source raises
`ValueError` in both situations); `keyError` models a failing `dict` index /
`dict.pop`, `attributeError` a failing attribute lookup. -/
inductive PyErr where
  | valueError (msg : String)
  | typeError (msg : String)
  | keyError (key : String)
  | attributeError (attrName : String)
deriving DecidableEq, Repr

/-- Python truthiness of an `Optional[str]`: `None` and `""` are falsy. -/
def truthyOptStr : Option String → Bool
  | none => false
  | some s => s ≠ ""

/-- Python truthiness of an `Optional[int]`: `None` and `0` are falsy. -/
def truthyOptNat : Option Nat → Bool
  | none => false
  | some n => n ≠ 0

/-- Python truthiness of a `None | bool` value: only `True` is truthy. -/
def truthyOptBool : Option Bool → Bool
  | none => false
  | some b => b

/-- Intersecting a number with itself bitwise is the identity. -/
theorem land_self_eq (m : Nat) : m &&& m = m := by
  apply Nat.eq_of_testBit_eq
  intro k
  simp [Nat.testBit_land]

/-- Doubling preserves and reflects being a power of two (for positive numbers). -/
theorem exists_pow_double (m : Nat) :
    (∃ k, 2 * m = 2 ^ k) ↔ ∃ k, m = 2 ^ k := by
  constructor
  · rintro ⟨k, hk⟩
    cases k with
    | zero => rw [pow_zero] at hk; omega
    | succ j =>
      rw [pow_succ] at hk
      exact ⟨j, by omega⟩
  · rintro ⟨k, hk⟩
    exact ⟨k + 1, by rw [pow_succ]; omega⟩

/-- The bit trick used by `Asset.get` (`size & (size - 1) == 0`) characterises
the powers of two among the positive naturals. -/
theorem land_pred_eq_zero_iff : ∀ n : Nat, 0 < n → ((n &&& (n - 1) = 0) ↔ ∃ k, n = 2 ^ k) := by
  intro n
  induction n using Nat.strong_induction_on with
  | _ n ih =>
    intro hn
    rcases Nat.even_or_odd n with he | ho
    · obtain ⟨m, hm⟩ := he
      have hm2 : n = 2 * m := by omega
      subst hm2
      have hmpos : 0 < m := by omega
      have hstep : (2 * m) &&& (2 * m - 1) = 2 * (m &&& (m - 1)) := by
        have h1 : 2 * m - 1 = 2 * (m - 1) + 1 := by omega
        rw [h1]
        exact Nat.land_bit false m true (m - 1)
      rw [hstep]
      constructor
      · intro h0
        have hz : m &&& (m - 1) = 0 := by omega
        obtain ⟨k, hk⟩ := (ih m (by omega) hmpos).mp hz
        exact ⟨k + 1, by rw [pow_succ]; omega⟩
      · rintro ⟨k, hk⟩
        have hk2 : ∃ j, m = 2 ^ j := (exists_pow_double m).mp ⟨k, hk⟩
        have := (ih m (by omega) hmpos).mpr hk2
        omega
    · obtain ⟨m, hm⟩ := ho
      subst hm
      by_cases hm0 : m = 0
      · subst hm0
        constructor
        · intro _
          exact ⟨0, by norm_num⟩
        · intro _
          decide
      · have hstep : (2 * m + 1) &&& (2 * m + 1 - 1) = 2 * (m &&& m) := by
          have h1 : 2 * m + 1 - 1 = 2 * m := by omega
          rw [h1]
          exact Nat.land_bit true m false m
        rw [hstep, land_self_eq]
        constructor
        · intro h
          exact absurd h (by omega)
        · rintro ⟨k, hk⟩
          exfalso
          cases k with
          | zero => rw [pow_zero] at hk; omega
          | succ j => rw [pow_succ] at hk; omega

/-! Embedding of `dis_snek/models/discord_objects/asset.py`. The `Snake`
client back-reference is dropped: it is used only to hand the fully built URL
to `http.request_cdn`, so `Asset.get` is embedded as producing the URL that is
passed to that collaborator (`Except` for the raising paths). -/

/-- Python `str.startswith`, via the character lists of the two strings. -/
def pyStartsWith (s pat : String) : Bool := pat.data.isPrefixOf s.data

/-- Field data of `class Asset`. -/
structure Asset where
  url : String
  hash : Option String
deriving DecidableEq, Repr

/-- The `cdn` address for assets (`Asset.BASE`). -/
def Asset.BASE : String := "https://cdn.discordapp.com"

/-- Python `path.format(asset_hash)` for the single-positional-placeholder
paths used with assets: every literal placeholder is replaced by the hash. -/
def formatPath (path arg : String) : String :=
  path.replace "\x7b\x7d" arg

/-- `Asset.from_path_hash`: builds the URL from the base CDN address and the
formatted path, storing the hash. -/
def Asset.from_path_hash (path asset_hash : String) : Asset :=
  { url := Asset.BASE ++ "/" ++ formatPath path asset_hash, hash := some asset_hash }

/-- `Asset.animated`: `if not self.hash: return None` (so `None` and `""`
yield `None`, despite the `bool` annotation), else
`self.hash.startswith("a_")`. -/
def Asset.animated (a : Asset) : Option Bool :=
  match a.hash with
  | none => none
  | some h => if h = "" then none else some (pyStartsWith h "a_")

/-- `Asset.get`, embedded as the URL handed to `http.request_cdn`: default the
extension from `animated` truthiness when the passed extension is falsy, then
validate a truthy `size` (power of two, within `[16, 4096]`) and splice
`?size={size}` in before appending the extension. -/
def Asset.get (a : Asset) (extension : Option String) (size : Option Nat) :
    Except PyErr String :=
  let ext := if truthyOptStr extension then extension.getD ""
             else if truthyOptBool a.animated then ".gif" else ".png"
  let url := a.url
  match size with
  | some n =>
    if n ≠ 0 then
      if ¬ (n ≠ 0 ∧ n &&& (n - 1) = 0) then
        Except.error (PyErr.valueError "Size should be a power of 2")
      else if ¬ (16 ≤ n ∧ n ≤ 4096) then
        Except.error (PyErr.valueError "Size should be between 16 and 4096")
      else Except.ok (url ++ ("?size=" ++ toString n) ++ ext)
    else Except.ok (url ++ ext)
  | none => Except.ok (url ++ ext)

/-- C3: an asset built via `from_path_hash` with a hash carrying the reserved
animated marker has `animated = True` and defaults its extension to `".gif"`
(a hash without the marker defaults to `".png"`), and requesting with
`size=32` yields the URL with `?size=32` placed before the extension. -/
theorem asset_url_construction (path h h2 : String)
    (hpre : pyStartsWith h "a_" = true) (h2ne : h2 ≠ "")
    (h2pre : pyStartsWith h2 "a_" = false) :
    (Asset.from_path_hash path h).animated = some true ∧
    (Asset.from_path_hash path h).get none none =
      Except.ok ((Asset.from_path_hash path h).url ++ ".gif") ∧
    (Asset.from_path_hash path h2).get none none =
      Except.ok ((Asset.from_path_hash path h2).url ++ ".png") ∧
    (Asset.from_path_hash path h).get none (some 32) =
      Except.ok ((Asset.from_path_hash path h).url ++ "?size=32" ++ ".gif") := by
  have hne : h ≠ "" := by
    intro he
    rw [he] at hpre
    exact absurd hpre (by decide)
  refine ⟨?_, ?_, ?_, ?_⟩ <;>
    simp [Asset.from_path_hash, Asset.animated, Asset.get, truthyOptStr,
      truthyOptBool, hne, hpre, h2ne, h2pre,
      show (32 : Nat) &&& 31 = 0 from by decide,
      show "?size=" ++ toString (32 : Nat) = "?size=32" from rfl]

/-- C3 witness: the spec's own example hash `"a_1234"` (and a static `"1234"`). -/
theorem asset_url_construction_witness :
    (Asset.from_path_hash "icons/\x7b\x7d.png" "a_1234").animated = some true ∧
    (Asset.from_path_hash "icons/\x7b\x7d.png" "a_1234").get none none =
      Except.ok ((Asset.from_path_hash "icons/\x7b\x7d.png" "a_1234").url ++ ".gif") ∧
    (Asset.from_path_hash "icons/\x7b\x7d.png" "1234").get none none =
      Except.ok ((Asset.from_path_hash "icons/\x7b\x7d.png" "1234").url ++ ".png") ∧
    (Asset.from_path_hash "icons/\x7b\x7d.png" "a_1234").get none (some 32) =
      Except.ok ((Asset.from_path_hash "icons/\x7b\x7d.png" "a_1234").url ++ "?size=32" ++ ".gif") :=
  asset_url_construction "icons/\x7b\x7d.png" "a_1234" "1234"
    (by decide) (by decide) (by decide)

/-- C4 counterexample: `size=0` is an explicit size argument that is neither a
power of two nor inside `[16, 4096]`, yet `get` raises no validation error:
Python `if size:` is false at `0`, so the checks (and the size parameter) are
skipped entirely, against the claim's "fails if and only if". -/
theorem asset_get_size_zero_skips_validation :
    (Asset.from_path_hash "icons/\x7b\x7d.png" "1234").get none (some 0) =
      Except.ok ((Asset.from_path_hash "icons/\x7b\x7d.png" "1234").url ++ ".png") ∧
    (¬ ∃ k : Nat, 0 = 2 ^ k) ∧ ¬ (16 ≤ 0 ∧ (0 : Nat) ≤ 4096) := by
  refine ⟨rfl, ?_, by omega⟩
  rintro ⟨k, hk⟩
  have := pow_pos (show (0 : Nat) < 2 by norm_num) k
  omega

/-- C4 (amended): for every explicit nonzero size argument, `Asset.get` fails
with the validation error exactly when the size is not a power of two or lies
outside the inclusive range `[16, 4096]`; an explicit `size=0` (falsy in
Python) skips the validation and is treated as if no size were given. -/
theorem asset_get_size_validation (a : Asset) (ext : Option String) (n : Nat)
    (hn : 0 < n) :
    (∃ msg, a.get ext (some n) = Except.error (PyErr.valueError msg)) ↔
      ((¬ ∃ k, n = 2 ^ k) ∨ ¬ (16 ≤ n ∧ n ≤ 4096)) := by
  have hne : n ≠ 0 := by omega
  have hpow := land_pred_eq_zero_iff n hn
  by_cases hp : n &&& (n - 1) = 0
  · by_cases hr : 16 ≤ n ∧ n ≤ 4096
    · simp [Asset.get, hne, hp, hr, hpow.mp hp]
    · simp [Asset.get, hne, hp, hr]
  · by_cases hr : 16 ≤ n ∧ n ≤ 4096
    · simp [Asset.get, hne, hp, hr]
      intro k hk
      exact hp (hpow.mpr ⟨k, hk⟩)
    · simp [Asset.get, hne, hp, hr]

/-- C4 witness: the spec's example `size=17` is nonzero, and the amended
equivalence holds there (17 is not a power of two, so the call fails). -/
theorem asset_get_size_validation_witness :
    (0 : Nat) < 17 ∧
    ((∃ msg, (Asset.from_path_hash "icons/\x7b\x7d.png" "1234").get none (some 17) =
        Except.error (PyErr.valueError msg)) ↔
      ((¬ ∃ k, (17 : Nat) = 2 ^ k) ∨ ¬ (16 ≤ 17 ∧ (17 : Nat) ≤ 4096))) :=
  ⟨by norm_num,
   asset_get_size_validation (Asset.from_path_hash "icons/\x7b\x7d.png" "1234")
     none 17 (by norm_num)⟩

/-- C10: an asset whose hash field is `None` or the empty string has
`animated = None` rather than a boolean, and `get` with no explicit extension
treats it as non-animated, defaulting the extension to `".png"`. -/
theorem asset_animated_none (a : Asset) (h : a.hash = none ∨ a.hash = some "") :
    a.animated = none ∧ a.get none none = Except.ok (a.url ++ ".png") := by
  have ha : a.animated = none := by
    rcases h with h | h <;> simp [Asset.animated, h]
  exact ⟨ha, by simp [Asset.get, truthyOptStr, truthyOptBool, ha]⟩

/-- C10 witness: a concrete asset with no hash. -/
theorem asset_animated_none_witness :
    (Asset.mk "u" none).animated = none ∧
    (Asset.mk "u" none).get none none = Except.ok ("u" ++ ".png") :=
  asset_animated_none (Asset.mk "u" none) (Or.inl rfl)

/-! Python dictionaries, embedded as insertion-ordered association lists. -/

/-- Python `d.get(k)` on an insertion-ordered dictionary. -/
def dictGet {κ α : Type} [DecidableEq κ] (d : List (κ × α)) (k : κ) : Option α :=
  (d.find? (fun kv => kv.1 = k)).map (fun kv => kv.2)

/-- The removal effect of Python `d.pop(k)` / `d.pop(k, None)`. -/
def dictRemove {κ α : Type} [DecidableEq κ] (d : List (κ × α)) (k : κ) :
    List (κ × α) :=
  d.filter (fun kv => ¬ (kv.1 = k))

/-- Python `d[k] = v`: overwrite in place when the key is present (keeping its
position), else append at the end. -/
def dictSet {κ α : Type} [DecidableEq κ] (d : List (κ × α)) (k : κ) (v : α) :
    List (κ × α) :=
  if (dictGet d k).isSome then
    d.map (fun kv => if kv.1 = k then (k, v) else kv)
  else d ++ [(k, v)]

/-- Python `d[k]` on a string-keyed dictionary: a raising lookup
(`KeyError` when the key is absent). -/
def dictIndex {α : Type} (d : List (String × α)) (k : String) : Except PyErr α :=
  match dictGet d k with
  | some v => Except.ok v
  | none => Except.error (PyErr.keyError k)

theorem dictGet_dictRemove_self {κ α : Type} [DecidableEq κ]
    (d : List (κ × α)) (k : κ) : dictGet (dictRemove d k) k = none := by
  induction d with
  | nil => rfl
  | cons kv t ih =>
    unfold dictRemove at ih ⊢
    rw [List.filter_cons]
    by_cases h : kv.1 = k
    · rw [if_neg (by simp [h])]
      exact ih
    · unfold dictGet at ih ⊢
      rw [if_pos (by simp [h]), List.find?_cons_of_neg _ (by simp [h])]
      exact ih

theorem dictGet_dictRemove_ne {κ α : Type} [DecidableEq κ]
    (d : List (κ × α)) (k k2 : κ) (hne : k2 ≠ k) :
    dictGet (dictRemove d k) k2 = dictGet d k2 := by
  induction d with
  | nil => rfl
  | cons kv t ih =>
    unfold dictRemove at ih ⊢
    rw [List.filter_cons]
    by_cases h : kv.1 = k
    · have h2 : ¬ (kv.1 = k2) := by rw [h]; exact fun he => hne he.symm
      rw [if_neg (by simp [h])]
      rw [ih]
      unfold dictGet
      rw [List.find?_cons_of_neg _ (by simp [h2])]
    · rw [if_pos (by simp [h])]
      by_cases h2 : kv.1 = k2
      · unfold dictGet
        rw [List.find?_cons_of_pos _ (by simp [h2]),
          List.find?_cons_of_pos _ (by simp [h2])]
      · unfold dictGet at ih ⊢
        rw [List.find?_cons_of_neg _ (by simp [h2]),
          List.find?_cons_of_neg _ (by simp [h2])]
        exact ih

theorem dictGet_map_overwrite {κ α : Type} [DecidableEq κ]
    (d : List (κ × α)) (k : κ) (v : α) :
    dictGet (d.map (fun kv => if kv.1 = k then (k, v) else kv)) k =
      (dictGet d k).map (fun _ => v) := by
  induction d with
  | nil => rfl
  | cons kv t ih =>
    rw [List.map_cons]
    by_cases h : kv.1 = k
    · rw [if_pos h]
      unfold dictGet
      rw [List.find?_cons_of_pos _ (by simp), List.find?_cons_of_pos _ (by simp [h])]
      rfl
    · rw [if_neg h]
      unfold dictGet at ih ⊢
      rw [List.find?_cons_of_neg _ (by simp [h]), List.find?_cons_of_neg _ (by simp [h])]
      exact ih

theorem dictGet_dictSet_self {κ α : Type} [DecidableEq κ]
    (d : List (κ × α)) (k : κ) (v : α) : dictGet (dictSet d k v) k = some v := by
  unfold dictSet
  by_cases hs : (dictGet d k).isSome
  · rw [if_pos hs, dictGet_map_overwrite]
    obtain ⟨w, hw⟩ := Option.isSome_iff_exists.mp hs
    rw [hw]
    rfl
  · rw [if_neg hs]
    have hn : dictGet d k = none := Option.not_isSome_iff_eq_none.mp hs
    unfold dictGet at hn ⊢
    cases hf : d.find? (fun kv => kv.1 = k) with
    | some w => rw [hf] at hn; simp at hn
    | none => simp [List.find?_append, hf]

theorem dictGet_map_overwrite_ne {κ α : Type} [DecidableEq κ]
    (d : List (κ × α)) (k k2 : κ) (v : α) (hne : k2 ≠ k) :
    dictGet (d.map (fun kv => if kv.1 = k then (k, v) else kv)) k2 =
      dictGet d k2 := by
  have hk : ¬ (k = k2) := fun he => hne he.symm
  induction d with
  | nil => rfl
  | cons kv t ih =>
    rw [List.map_cons]
    by_cases h : kv.1 = k
    · have h2 : ¬ (kv.1 = k2) := by rw [h]; exact hk
      rw [if_pos h]
      unfold dictGet at ih ⊢
      rw [List.find?_cons_of_neg _ (by simp [hk]),
        List.find?_cons_of_neg _ (by simp [h2])]
      exact ih
    · rw [if_neg h]
      by_cases h2 : kv.1 = k2
      · unfold dictGet
        rw [List.find?_cons_of_pos _ (by simp [h2]),
          List.find?_cons_of_pos _ (by simp [h2])]
      · unfold dictGet at ih ⊢
        rw [List.find?_cons_of_neg _ (by simp [h2]),
          List.find?_cons_of_neg _ (by simp [h2])]
        exact ih

theorem dictGet_dictSet_ne {κ α : Type} [DecidableEq κ]
    (d : List (κ × α)) (k k2 : κ) (v : α) (hne : k2 ≠ k) :
    dictGet (dictSet d k v) k2 = dictGet d k2 := by
  unfold dictSet
  by_cases hs : (dictGet d k).isSome
  · rw [if_pos hs]
    exact dictGet_map_overwrite_ne d k k2 v hne
  · rw [if_neg hs]
    have hk : ¬ (k = k2) := fun he => hne he.symm
    unfold dictGet
    simp [List.find?_append, hk]

/-! Wire payload values. Payload dictionaries map string keys to JSON-like
values; the constructors cover the value shapes the embedded code handles. -/

/-- A Python value occurring in a payload dictionary. `vMissing` is the
`MISSING` sentinel. Modelled from the spec: `dis_snek/const.py` is not under
src/; per the spec's design note the partial-update parameters use "a sentinel
'unset' default distinct from `None`" to keep the three-way
absent / explicit-null / explicit-value distinction, so `MISSING` is embedded
as its own value, different from `vNone`. -/
inductive PVal where
  | vNone
  | vMissing
  | vStr (s : String)
  | vNat (n : Nat)
  | vBool (b : Bool)
  | vNatList (l : List Nat)
  | vDict (d : List (String × PVal))

/-- Python `v is None`, on payload values. -/
def PVal.isPyNone : PVal → Bool
  | PVal.vNone => true
  | _ => false

/-- Python truthiness of a payload value (`MISSING` defines itself as falsy;
empty strings, `0`, empty lists and empty dicts are falsy). -/
def truthyPVal : PVal → Bool
  | PVal.vNone => false
  | PVal.vMissing => false
  | PVal.vStr s => s ≠ ""
  | PVal.vNat n => n ≠ 0
  | PVal.vBool b => b
  | PVal.vNatList l => ¬ l.isEmpty
  | PVal.vDict d => ¬ d.isEmpty

/-- A parameter with a `MISSING` default: the caller either omits it
(`missing`), passes an explicit `None` (`null`) or passes a value. -/
inductive Arg (α : Type) where
  | missing
  | null
  | val (a : α)
deriving DecidableEq, Repr

/-- An `Optional[str]` argument as a payload value. -/
def optStrVal : Option String → PVal
  | none => PVal.vNone
  | some s => PVal.vStr s

/-- An `Optional[List[Snowflake_Type]]` argument as a payload value. -/
def optRolesVal : Option (List Nat) → PVal
  | none => PVal.vNone
  | some l => PVal.vNatList l

/-- An `Optional[str] = MISSING` argument as a payload value. -/
def argStrVal : Arg String → PVal
  | Arg.missing => PVal.vMissing
  | Arg.null => PVal.vNone
  | Arg.val s => PVal.vStr s

/-- Modelled from the spec: `dict_filter_none` of `dis_snek/utils/serializer.py`
is not under src/. Per its name, and the spec's distinction between the absent
(`MISSING`) and explicit-null (`None`) parameter states, it removes exactly the
entries whose value is `None`; the `MISSING` sentinel is a different value and
is therefore kept. -/
def dict_filter_none (d : List (String × PVal)) : List (String × PVal) :=
  d.filter (fun kv => ¬ kv.2.isPyNone)

/-! Embedding of `dis_snek/models/discord_objects/emoji.py` (`CustomEmoji`)
and `dis_snek/models/discord_objects/sticker.py` (`Sticker`). The `Snake`
client back-reference is dropped; the HTTP collaborator is passed in as an
oracle function and the issued HTTP calls are recorded in a trace, mutating
methods return the raised error (if any) next to the resulting entity state. -/

/-- Calls issued to the HTTP collaborator (spec section 6). -/
inductive HttpCall where
  | modifyGuildEmoji (payload : List (String × PVal)) (guild_id : Option Nat)
      (emoji_id : Option Nat) (reason : Option String)
  | deleteGuildEmoji (guild_id : Option Nat) (emoji_id : Option Nat)
      (reason : Option String)
  | modifyGuildSticker (payload : List (String × PVal)) (guild_id : Option Nat)
      (sticker_id : Nat) (reason : Arg String)
  | deleteGuildSticker (guild_id : Option Nat) (sticker_id : Nat)
      (reason : Arg String)

/-- Field data of `class CustomEmoji(Emoji)` (the `Emoji` base fields merged
in; snowflake identifiers as naturals, as produced by `to_snowflake`). -/
structure CustomEmoji where
  id : Option Nat
  name : Option String
  animated : Bool
  require_colons : Bool
  managed : Bool
  available : Bool
  creator_id : Option Nat
  role_ids : List Nat
  guild_id : Option Nat
deriving DecidableEq, Repr

/-- Field data of `class Sticker(StickerItem)` (the `StickerItem` /
`DiscordObject` fields merged in; the `IntEnum`-valued fields as naturals). -/
structure Sticker where
  id : Nat
  name : String
  format_type : Nat
  pack_id : Option Nat
  description : Option String
  tags : String
  type : Nat
  available : Option Bool
  sort_value : Option Nat
  user_id : Option Nat
  guild_id : Option Nat
deriving DecidableEq, Repr

/-- The per-entity-kind resolution function a deferred handle is built over
(spec section 6: `cache.get_<entity>`). -/
inductive CacheMethod where
  | get_user
  | get_role
  | get_guild
deriving DecidableEq, Repr

/-- Modelled from the spec: `CacheProxy` of `dis_snek/utils/proxy.py` is not
under src/. Per spec section 4.2 it is a deferred handle packaging a stored
identifier together with the resolution function; the source properties
construct it as `CacheProxy(id=..., method=...)`. -/
structure CacheProxy where
  id : Option Nat
  method : CacheMethod
deriving DecidableEq, Repr

/-- Modelled from the spec: `CacheView` of `dis_snek/utils/proxy.py` is not
under src/. Per spec section 4.2 it is the list-of-identifiers variant of the
deferred handle. -/
structure CacheView where
  ids : List Nat
  method : CacheMethod
deriving DecidableEq, Repr

/-- The `CustomEmoji.creator` property: a guarded deferred handle over the
stored creator identifier (reading a property is embedded as a state
transformer so that its absence of mutation is a provable statement). -/
def CustomEmoji.creator (e : CustomEmoji) : Option CacheProxy × CustomEmoji :=
  (if truthyOptNat e.creator_id then
     some { id := e.creator_id, method := CacheMethod.get_user }
   else none, e)

/-- The `CustomEmoji.roles` property: an unguarded deferred view over the
stored role identifier list. -/
def CustomEmoji.roles (e : CustomEmoji) : CacheView × CustomEmoji :=
  ({ ids := e.role_ids, method := CacheMethod.get_role }, e)

/-- The `CustomEmoji.guild` property: an unguarded deferred handle over the
stored guild identifier. -/
def CustomEmoji.guild (e : CustomEmoji) : CacheProxy × CustomEmoji :=
  ({ id := e.guild_id, method := CacheMethod.get_guild }, e)

/-- The `Sticker.user` property: a guarded deferred handle over the stored
uploader identifier. -/
def Sticker.user (s : Sticker) : Option CacheProxy × Sticker :=
  (if truthyOptNat s.user_id then
     some { id := s.user_id, method := CacheMethod.get_user }
   else none, s)

/-- The `Sticker.guild` property: a guarded deferred handle over the stored
guild identifier. -/
def Sticker.guild (s : Sticker) : Option CacheProxy × Sticker :=
  (if truthyOptNat s.guild_id then
     some { id := s.guild_id, method := CacheMethod.get_guild }
   else none, s)

/-- Modelled from the spec: `DictSerializationMixin.update_from_dict`
(`dis_snek/mixins/serialization.py`, not under src/) is the update-from-payload
operation that applies returned canonical state back onto the entity (spec
sections 3 and 4.3): each recognized key overwrites the corresponding stored
field, unknown keys are ignored. Field-by-field application for `CustomEmoji`. -/
def applyEmojiField (e : CustomEmoji) (kv : String × PVal) : CustomEmoji :=
  match kv with
  | ("id", PVal.vNat n) => { e with id := some n }
  | ("name", PVal.vStr s) => { e with name := some s }
  | ("animated", PVal.vBool b) => { e with animated := b }
  | ("require_colons", PVal.vBool b) => { e with require_colons := b }
  | ("managed", PVal.vBool b) => { e with managed := b }
  | ("available", PVal.vBool b) => { e with available := b }
  | ("creator_id", PVal.vNat n) => { e with creator_id := some n }
  | ("creator_id", PVal.vNone) => { e with creator_id := none }
  | ("role_ids", PVal.vNatList l) => { e with role_ids := l }
  | ("guild_id", PVal.vNat n) => { e with guild_id := some n }
  | _ => e

/-- The update-from-payload operation on a `CustomEmoji` (see
`applyEmojiField`). -/
def CustomEmoji.update_from_dict (e : CustomEmoji) (d : List (String × PVal)) :
    CustomEmoji :=
  d.foldl applyEmojiField e

/-- Field-by-field payload application for `Sticker` (see `applyEmojiField`). -/
def applyStickerField (s : Sticker) (kv : String × PVal) : Sticker :=
  match kv with
  | ("id", PVal.vNat n) => { s with id := n }
  | ("name", PVal.vStr v) => { s with name := v }
  | ("format_type", PVal.vNat n) => { s with format_type := n }
  | ("pack_id", PVal.vNat n) => { s with pack_id := some n }
  | ("description", PVal.vStr v) => { s with description := some v }
  | ("description", PVal.vNone) => { s with description := none }
  | ("tags", PVal.vStr v) => { s with tags := v }
  | ("type", PVal.vNat n) => { s with type := n }
  | ("available", PVal.vBool b) => { s with available := some b }
  | ("sort_value", PVal.vNat n) => { s with sort_value := some n }
  | ("user_id", PVal.vNat n) => { s with user_id := some n }
  | ("guild_id", PVal.vNat n) => { s with guild_id := some n }
  | _ => s

/-- The update-from-payload operation on a `Sticker` (see `applyEmojiField`). -/
def Sticker.update_from_dict (s : Sticker) (d : List (String × PVal)) : Sticker :=
  d.foldl applyStickerField s

/-- `CustomEmoji.edit`: build the partial payload with `dict_filter_none` over
the `None`-defaulted parameters, issue `http.modify_guild_emoji`, and on
success apply the returned state via `update_from_dict`. The HTTP collaborator
is an oracle from the request payload to its reply; the returned triple is
(raised error, entity state after the call, issued HTTP calls). -/
def CustomEmoji.edit (e : CustomEmoji) (name : Option String)
    (roles : Option (List Nat)) (reason : Option String)
    (http : List (String × PVal) → Except PyErr (List (String × PVal))) :
    Option PyErr × CustomEmoji × List HttpCall :=
  let data_payload := dict_filter_none [("name", optStrVal name), ("roles", optRolesVal roles)]
  match http data_payload with
  | Except.error err =>
    (some err, e, [HttpCall.modifyGuildEmoji data_payload e.guild_id e.id reason])
  | Except.ok updated =>
    (none, e.update_from_dict updated,
     [HttpCall.modifyGuildEmoji data_payload e.guild_id e.id reason])

/-- `CustomEmoji.delete`: require a truthy stored guild identifier (else raise
before any collaborator call), then issue exactly `http.delete_guild_emoji`. -/
def CustomEmoji.delete (e : CustomEmoji) (reason : Option String) :
    Option PyErr × List HttpCall :=
  if ¬ truthyOptNat e.guild_id then
    (some (PyErr.valueError "Cannot delete emoji, no guild id set."), [])
  else
    (none, [HttpCall.deleteGuildEmoji e.guild_id e.id reason])

/-- `Sticker.edit`: require a truthy stored guild identifier, build the payload
with `dict_filter_none` over the `MISSING`-defaulted parameters, issue
`http.modify_guild_sticker`, and on success apply the returned state via
`update_from_dict` (same embedding conventions as `CustomEmoji.edit`). -/
def Sticker.edit (s : Sticker) (name description tags : Arg String)
    (reason : Arg String)
    (http : List (String × PVal) → Except PyErr (List (String × PVal))) :
    Option PyErr × Sticker × List HttpCall :=
  if ¬ truthyOptNat s.guild_id then
    (some (PyErr.valueError "You can only edit guild stickers."), s, [])
  else
    let payload := dict_filter_none
      [("name", argStrVal name), ("description", argStrVal description),
       ("tags", argStrVal tags)]
    match http payload with
    | Except.error err =>
      (some err, s, [HttpCall.modifyGuildSticker payload s.guild_id s.id reason])
    | Except.ok updated =>
      (none, s.update_from_dict updated,
       [HttpCall.modifyGuildSticker payload s.guild_id s.id reason])

/-- `Sticker.delete`: require a truthy stored guild identifier (else raise
before any collaborator call), then issue exactly `http.delete_guild_sticker`. -/
def Sticker.delete (s : Sticker) (reason : Arg String) :
    Option PyErr × List HttpCall :=
  if ¬ truthyOptNat s.guild_id then
    (some (PyErr.valueError "You can only delete guild stickers."), [])
  else
    (none, [HttpCall.deleteGuildSticker s.guild_id s.id reason])

/-! Payload decoding (`CustomEmoji._process_dict` / `from_dict`) and the cache
collaborator it calls into. -/

/-- The collaborator cache state visible to this code: the stored user
payloads, keyed by user identifier. -/
structure CacheState where
  users : List (Nat × PVal)

/-- Operations issued against the cache collaborator, recorded as a trace. -/
inductive CacheOp where
  | placeUserData (payload : PVal)

/-- The identifier carried by a raw user payload. -/
def payloadUserId (v : PVal) : Nat :=
  match v with
  | PVal.vDict d =>
    match dictGet d "id" with
    | some (PVal.vNat n) => n
    | _ => 0
  | _ => 0

/-- Modelled from the spec: `cache.place_user_data(payload) -> User` (spec
section 6, an external collaborator) inserts/updates a user entity from a raw
nested payload and returns the stored entity; the embedded version stores the
payload under its identifier and returns that identifier. -/
def place_user_data (cache : CacheState) (payload : PVal) : Nat × CacheState :=
  let uid := payloadUserId payload
  (uid, { users := dictSet cache.users uid payload })

/-- The `roles` → `role_ids` renaming step of `CustomEmoji._process_dict`:
`if "roles" in data: data["role_ids"] = data.pop("roles")`. -/
def rolesStep (d : List (String × PVal)) : List (String × PVal) :=
  match dictGet d "roles" with
  | some v => dictSet (dictRemove d "roles") "role_ids" v
  | none => d

theorem rolesStep_get_roles (d : List (String × PVal)) :
    dictGet (rolesStep d) "roles" = none := by
  unfold rolesStep
  cases h : dictGet d "roles" with
  | none => exact h
  | some v =>
    rw [dictGet_dictSet_ne _ _ _ _ (by decide), dictGet_dictRemove_self]

theorem rolesStep_get_role_ids (d : List (String × PVal)) (v : PVal)
    (h : dictGet d "roles" = some v) :
    dictGet (rolesStep d) "role_ids" = some v := by
  unfold rolesStep
  rw [h, dictGet_dictSet_self]

theorem rolesStep_get_ne (d : List (String × PVal)) (k : String)
    (h1 : k ≠ "roles") (h2 : k ≠ "role_ids") :
    dictGet (rolesStep d) k = dictGet d k := by
  unfold rolesStep
  cases h : dictGet d "roles" with
  | none => rfl
  | some v =>
    rw [dictGet_dictSet_ne _ _ _ _ h2, dictGet_dictRemove_ne _ _ _ h1]

/-- `CustomEmoji._process_dict`: pop the nested `user` payload and (when
truthy) push it into the cache via `place_user_data`, storing the returned
identifier under `creator_id` (else `None`); then rename a present `roles` key
to `role_ids`. Returns the processed dictionary, the cache state and the trace
of cache calls. -/
def CustomEmoji.process_dict (data : List (String × PVal)) (cache : CacheState) :
    List (String × PVal) × CacheState × List CacheOp :=
  let creator_dict := dictGet data "user"
  let data1 := dictRemove data "user"
  let step1 : PVal × CacheState × List CacheOp :=
    match creator_dict with
    | some cd =>
      if truthyPVal cd then
        let r := place_user_data cache cd
        (PVal.vNat r.1, r.2, [CacheOp.placeUserData cd])
      else (PVal.vNone, cache, [])
    | none => (PVal.vNone, cache, [])
  let data2 := dictSet data1 "creator_id" step1.1
  (rolesStep data2, step1.2.1, step1.2.2)

/-- Modelled from the spec: `DictSerializationMixin._get_init_keys`
(`dis_snek/mixins/serialization.py`, not under src/) — the declared
constructor field set of `CustomEmoji`, i.e. the attrs fields visible in the
source (private `_`-named fields appear under their init alias). -/
def CustomEmoji.init_keys : List String :=
  ["id", "name", "animated", "require_colons", "managed", "available",
   "creator_id", "role_ids", "guild_id"]

/-- Modelled from the spec: `DictSerializationMixin._filter_kwargs` keeps only
the entries whose key is in the declared field set ("filtering out
reserved/mismatched keys", spec section 3). -/
def filter_kwargs (d : List (String × PVal)) (keys : List String) :
    List (String × PVal) :=
  d.filter (fun kv => kv.1 ∈ keys)

/-- Construction of a `CustomEmoji` from keyword arguments, with the attrs
field defaults of the source class. -/
def buildEmoji (kwargs : List (String × PVal)) : CustomEmoji :=
  { id := match dictGet kwargs "id" with
          | some (PVal.vNat n) => some n
          | _ => none
  , name := match dictGet kwargs "name" with
            | some (PVal.vStr s) => some s
            | _ => none
  , animated := match dictGet kwargs "animated" with
                | some (PVal.vBool b) => b
                | _ => false
  , require_colons := match dictGet kwargs "require_colons" with
                      | some (PVal.vBool b) => b
                      | _ => false
  , managed := match dictGet kwargs "managed" with
               | some (PVal.vBool b) => b
               | _ => false
  , available := match dictGet kwargs "available" with
                 | some (PVal.vBool b) => b
                 | _ => false
  , creator_id := match dictGet kwargs "creator_id" with
                  | some (PVal.vNat n) => some n
                  | _ => none
  , role_ids := match dictGet kwargs "role_ids" with
                | some (PVal.vNatList l) => l
                | _ => []
  , guild_id := match dictGet kwargs "guild_id" with
                | some (PVal.vNat n) => some n
                | _ => none }

/-- `CustomEmoji.from_dict`: process the raw payload, then construct the
entity from the processed dictionary filtered down to the declared field set. -/
def CustomEmoji.from_dict (data : List (String × PVal)) (cache : CacheState) :
    CustomEmoji × CacheState × List CacheOp :=
  let r := CustomEmoji.process_dict data cache
  (buildEmoji (filter_kwargs r.1 CustomEmoji.init_keys), r.2.1, r.2.2)

/-! Embedding of `dis_snek/models/scale.py`. The client (`Snake`) registries
the scale touches are embedded as `BotState`; a hook argument is embedded by
whether `asyncio.iscoroutinefunction` accepts it. -/

/-- A command object registered by a scale, as `shed` distinguishes them:
an `InteractionCommand` (keyed by scope, then name) or a `MessageCommand`
(keyed by name). The payload `Nat` stands for the command object itself
(always truthy in Python). -/
inductive ScaleCmd where
  | interaction (scope : Nat) (cname : String) (obj : Nat)
  | message (cname : String) (obj : Nat)
deriving DecidableEq, Repr

/-- The client registries `shed` mutates (spec section 6): the name-keyed
message command table, the scope-then-name-keyed interaction table and the
name-keyed scale registry. Dictionary values are the stored objects,
represented by `Nat` stand-ins (Python objects without `__bool__`/`__len__`
are always truthy). -/
structure BotState where
  commands : List (String × Nat)
  interactions : List (Nat × List (String × Nat))
  scales : List (String × Nat)
deriving DecidableEq, Repr

/-- The data of a constructed `Scale` instance that `shed` reads: the mangled
`_Scale__name` the constructor stored, and `self._commands`. -/
structure ScaleObj where
  name : String
  cmds : List ScaleCmd
deriving DecidableEq, Repr

/-- One iteration of the `shed` loop. The `InteractionCommand` branch guards
with `dict.get` on both levels (a missing scope, an empty inner table or a
missing name all skip the pop); the `MessageCommand` branch instead evaluates
`self.bot.commands[cmd.name]` — a raising lookup, `KeyError` when the name is
absent — before popping. -/
def shedCmd (b : BotState) (c : ScaleCmd) : Option PyErr × BotState :=
  match c with
  | ScaleCmd.interaction scope cname _ =>
    match dictGet b.interactions scope with
    | some tbl =>
      if ¬ tbl.isEmpty ∧ (dictGet tbl cname).isSome then
        (none, { b with interactions := dictSet b.interactions scope (dictRemove tbl cname) })
      else (none, b)
    | none => (none, b)
  | ScaleCmd.message cname _ =>
    match dictIndex b.commands cname with
    | Except.error err => (some err, b)
    | Except.ok _ =>
      (none, { b with commands := dictRemove b.commands cname })

/-- The `shed` loop over `self._commands`: a raise aborts the iteration,
keeping the mutations already applied (Python mutates the tables in place). -/
def shedCmds (b : BotState) : List ScaleCmd → Option PyErr × BotState
  | [] => (none, b)
  | c :: rest =>
    match shedCmd b c with
    | (some e, b2) => (some e, b2)
    | (none, b2) => shedCmds b2 rest

/-- `Scale.shed`: remove the scale's commands from the client tables, then
`self.bot.scales.pop(self.__name__)`. A `Scale` *instance* has no `__name__`
attribute: the constructor stored the class name under the name-mangled
`_Scale__name` (`cls.__name = cls.__name__` inside `class Scale`), while
`__name__` — with two trailing underscores — is not mangled and exists only on
the class object itself, so the instance attribute lookup raises
`AttributeError` and the scale registry is never popped. -/
def Scale.shed (s : ScaleObj) (b : BotState) : Option PyErr × BotState :=
  match shedCmds b s.cmds with
  | (some e, b2) => (some e, b2)
  | (none, b2) => (some (PyErr.attributeError "__name__"), b2)

/-- A callable passed to a hook-registration method, as
`asyncio.iscoroutinefunction` classifies it. -/
structure PyCallable where
  obj : Nat
  isCoroutineFunction : Bool
deriving DecidableEq, Repr

/-- `Scale.add_scale_check`: reject non-coroutine callables with `TypeError`
(before touching the list), reset a falsy (empty) hook list to a fresh empty
list, then append. Returns (raised error, resulting hook list). -/
def add_scale_check (scale_checks : List PyCallable) (coroutine : PyCallable) :
    Option PyErr × List PyCallable :=
  if ¬ coroutine.isCoroutineFunction then
    (some (PyErr.typeError "Check must be a coroutine"), scale_checks)
  else
    let checks := if scale_checks.isEmpty then ([] : List PyCallable) else scale_checks
    (none, checks ++ [coroutine])

/-- `Scale.add_scale_prerun` (same structure as `add_scale_check`). -/
def add_scale_prerun (scale_prerun : List PyCallable) (coroutine : PyCallable) :
    Option PyErr × List PyCallable :=
  if ¬ coroutine.isCoroutineFunction then
    (some (PyErr.typeError "Callback must be a coroutine"), scale_prerun)
  else
    let hooks := if scale_prerun.isEmpty then ([] : List PyCallable) else scale_prerun
    (none, hooks ++ [coroutine])

/-- `Scale.add_scale_postrun` (same structure as `add_scale_check`). -/
def add_scale_postrun (scale_postrun : List PyCallable) (coroutine : PyCallable) :
    Option PyErr × List PyCallable :=
  if ¬ coroutine.isCoroutineFunction then
    (some (PyErr.typeError "Callback must be a coroutine"), scale_postrun)
  else
    let hooks := if scale_postrun.isEmpty then ([] : List PyCallable) else scale_postrun
    (none, hooks ++ [coroutine])

/-! Sample entities and collaborator oracles used by concrete instantiations. -/

/-- A guild emoji with every reference identifier set. -/
def emojiA : CustomEmoji :=
  { id := some 9, name := some "emo", animated := false, require_colons := false
  , managed := false, available := true, creator_id := some 42
  , role_ids := [1, 2], guild_id := some 5 }

/-- A guild sticker (guild identifier set). -/
def stickerA : Sticker :=
  { id := 11, name := "stick", format_type := 1, pack_id := none
  , description := some "d", tags := "t", type := 2, available := some true
  , sort_value := none, user_id := some 7, guild_id := some 7 }

/-- A standard sticker (no guild identifier). -/
def stickerB : Sticker :=
  { id := 12, name := "std", format_type := 1, pack_id := some 3
  , description := none, tags := "t2", type := 1, available := some true
  , sort_value := some 1, user_id := none, guild_id := none }

/-- An HTTP collaborator that always succeeds with an empty reply payload. -/
def okHttp : List (String × PVal) → Except PyErr (List (String × PVal)) :=
  fun _ => Except.ok []

/-- An HTTP collaborator whose call always raises. -/
def failHttp : List (String × PVal) → Except PyErr (List (String × PVal)) :=
  fun _ => Except.error (PyErr.valueError "boom")

/-- C7: the reference accessors never mutate the entity — each read hands the
state back unchanged, reading twice is idempotent (same handle over the same
state), and the handle packages exactly the stored identifier(s) with the
fixed resolution method. -/
theorem accessor_no_mutation (e : CustomEmoji) (s : Sticker) :
    (e.creator.2 = e ∧ e.roles.2 = e ∧ e.guild.2 = e ∧
     s.user.2 = s ∧ s.guild.2 = s) ∧
    (e.creator.2.creator = e.creator ∧ e.roles.2.roles = e.roles ∧
     e.guild.2.guild = e.guild ∧ s.user.2.user = s.user ∧
     s.guild.2.guild = s.guild) ∧
    ((e.creator.1.map (fun p => (p.id, p.method)) =
       if truthyOptNat e.creator_id then
         some (e.creator_id, CacheMethod.get_user) else none) ∧
     e.roles.1 = { ids := e.role_ids, method := CacheMethod.get_role } ∧
     e.guild.1 = { id := e.guild_id, method := CacheMethod.get_guild } ∧
     (s.user.1.map (fun p => (p.id, p.method)) =
       if truthyOptNat s.user_id then
         some (s.user_id, CacheMethod.get_user) else none) ∧
     (s.guild.1.map (fun p => (p.id, p.method)) =
       if truthyOptNat s.guild_id then
         some (s.guild_id, CacheMethod.get_guild) else none)) := by
  refine ⟨⟨rfl, rfl, rfl, rfl, rfl⟩, ⟨rfl, rfl, rfl, rfl, rfl⟩,
    ?_, rfl, rfl, ?_, ?_⟩ <;>
    simp only [CustomEmoji.creator, Sticker.user, Sticker.guild] <;>
    split <;> simp

/-- C5: deleting a guild-scoped entity whose stored guild identifier is unset
raises the precondition error with no HTTP call issued; with a stored guild
identifier (a positive snowflake) exactly one delete call is issued. -/
theorem delete_requires_guild (e : CustomEmoji) (s : Sticker)
    (r : Option String) (rs : Arg String) (g : Nat) (hg : 0 < g) :
    (e.guild_id = none →
      e.delete r =
        (some (PyErr.valueError "Cannot delete emoji, no guild id set."), [])) ∧
    (e.guild_id = some g →
      e.delete r = (none, [HttpCall.deleteGuildEmoji (some g) e.id r])) ∧
    (s.guild_id = none →
      s.delete rs =
        (some (PyErr.valueError "You can only delete guild stickers."), [])) ∧
    (s.guild_id = some g →
      s.delete rs = (none, [HttpCall.deleteGuildSticker (some g) s.id rs])) := by
  refine ⟨?_, ?_, ?_, ?_⟩ <;> intro h <;>
    simp [CustomEmoji.delete, Sticker.delete, truthyOptNat, h, hg.ne']

/-- C5 witness: a guild emoji deletes with one HTTP call; a standard sticker
fails the precondition with no call. -/
theorem delete_requires_guild_witness :
    emojiA.delete none = (none, [HttpCall.deleteGuildEmoji (some 5) (some 9) none]) ∧
    stickerB.delete Arg.missing =
      (some (PyErr.valueError "You can only delete guild stickers."), []) :=
  ⟨(delete_requires_guild emojiA stickerB none Arg.missing 5 (by norm_num)).2.1 rfl,
   (delete_requires_guild emojiA stickerB none Arg.missing 5 (by norm_num)).2.2.1 rfl⟩

/-- C6: the three hook-registration methods reject a non-coroutine callable
with `TypeError` leaving the hook list unchanged, and append a coroutine
callable at the end of the list. -/
theorem scale_hook_registration (hooks : List PyCallable) (c : PyCallable) :
    (c.isCoroutineFunction = false →
      add_scale_check hooks c =
        (some (PyErr.typeError "Check must be a coroutine"), hooks) ∧
      add_scale_prerun hooks c =
        (some (PyErr.typeError "Callback must be a coroutine"), hooks) ∧
      add_scale_postrun hooks c =
        (some (PyErr.typeError "Callback must be a coroutine"), hooks)) ∧
    (c.isCoroutineFunction = true →
      add_scale_check hooks c = (none, hooks ++ [c]) ∧
      add_scale_prerun hooks c = (none, hooks ++ [c]) ∧
      add_scale_postrun hooks c = (none, hooks ++ [c])) := by
  constructor <;> intro h <;> refine ⟨?_, ?_, ?_⟩ <;>
    cases hooks <;>
    simp [add_scale_check, add_scale_prerun, add_scale_postrun, h]

/-- C6 witness: concrete rejection (list untouched) and concrete append. -/
theorem scale_hook_registration_witness :
    add_scale_check [PyCallable.mk 5 true] (PyCallable.mk 0 false) =
      (some (PyErr.typeError "Check must be a coroutine"), [PyCallable.mk 5 true]) ∧
    add_scale_check [PyCallable.mk 5 true] (PyCallable.mk 1 true) =
      (none, [PyCallable.mk 5 true, PyCallable.mk 1 true]) :=
  ⟨((scale_hook_registration [PyCallable.mk 5 true] (PyCallable.mk 0 false)).1 rfl).1,
   ((scale_hook_registration [PyCallable.mk 5 true] (PyCallable.mk 1 true)).2 rfl).1⟩

/-- C8: state is updated via update-from-payload only after the HTTP
collaborator call has fully succeeded — when the call raises (which is also
how a cancellation surfaces at the `await`), the error propagates and every
field of the entity is left unchanged. -/
theorem edit_applies_update_only_on_success (e : CustomEmoji) (s : Sticker)
    (n : Option String) (ro : Option (List Nat)) (re : Option String)
    (sn sd st sr : Arg String) (err : PyErr)
    (http : List (String × PVal) → Except PyErr (List (String × PVal)))
    (hhttp : ∀ p, http p = Except.error err) :
    (e.edit n ro re http).2.1 = e ∧ (e.edit n ro re http).1 = some err ∧
    (s.edit sn sd st sr http).2.1 = s := by
  refine ⟨?_, ?_, ?_⟩
  · simp [CustomEmoji.edit, hhttp]
  · simp [CustomEmoji.edit, hhttp]
  · unfold Sticker.edit
    split
    · rfl
    · simp [hhttp]

/-- C8 witness: a failing collaborator leaves the concrete entities unchanged
and surfaces its error. -/
theorem edit_applies_update_only_on_success_witness :
    (emojiA.edit (some "x") none none failHttp).2.1 = emojiA ∧
    (emojiA.edit (some "x") none none failHttp).1 =
      some (PyErr.valueError "boom") ∧
    (stickerA.edit (Arg.val "x") Arg.missing Arg.missing Arg.missing
      failHttp).2.1 = stickerA :=
  edit_applies_update_only_on_success emojiA stickerA (some "x") none none
    (Arg.val "x") Arg.missing Arg.missing Arg.missing
    (PyErr.valueError "boom") failHttp (fun _ => rfl)

/-- C1 (code bug): the outbound partial-update payloads at the failing input.
`Sticker.edit` called with only `name` sends `description` and `tags` anyway,
bound to the `MISSING` sentinel — its parameters default to `MISSING`, which
`dict_filter_none` (filtering only `None`) does not remove — while
`CustomEmoji.edit` (whose parameters default to `None`) correctly drops its
omitted `roles` field. -/
theorem edit_payload_keeps_missing_sentinel :
    (stickerA.edit (Arg.val "new") Arg.missing Arg.missing Arg.missing
        okHttp).2.2 =
      [HttpCall.modifyGuildSticker
        [("name", PVal.vStr "new"), ("description", PVal.vMissing),
         ("tags", PVal.vMissing)]
        (some 7) 11 Arg.missing] ∧
    (emojiA.edit (some "new") none none okHttp).2.2 =
      [HttpCall.modifyGuildEmoji [("name", PVal.vStr "new")]
        (some 5) (some 9) none] :=
  ⟨rfl, rfl⟩

/-- C2 (code bug): `shed` at a concrete scale owning one message command.
The first shed removes the command but then raises `AttributeError` at
`self.bot.scales.pop(self.__name__)`, leaving the scale registered; a second
shed raises `KeyError` at the raising lookup `self.bot.commands[cmd.name]`
instead of treating the absent entry as a no-op. -/
theorem scale_shed_lookup_failure :
    Scale.shed (ScaleObj.mk "MyScale" [ScaleCmd.message "cmd" 1])
        (BotState.mk [("cmd", 1)] [] [("MyScale", 7)]) =
      (some (PyErr.attributeError "__name__"),
       BotState.mk [] [] [("MyScale", 7)]) ∧
    Scale.shed (ScaleObj.mk "MyScale" [ScaleCmd.message "cmd" 1])
        (BotState.mk [] [] [("MyScale", 7)]) =
      (some (PyErr.keyError "cmd"), BotState.mk [] [] [("MyScale", 7)]) :=
  ⟨rfl, rfl⟩

/-- Unfolded form of `CustomEmoji.process_dict`, splitting the creator step
into its three components. -/
theorem process_dict_eq (data : List (String × PVal)) (cache : CacheState) :
    CustomEmoji.process_dict data cache =
      (rolesStep (dictSet (dictRemove data "user") "creator_id"
         (match dictGet data "user" with
          | some cd =>
            if truthyPVal cd then PVal.vNat (place_user_data cache cd).1
            else PVal.vNone
          | none => PVal.vNone)),
       (match dictGet data "user" with
        | some cd => if truthyPVal cd then (place_user_data cache cd).2 else cache
        | none => cache),
       (match dictGet data "user" with
        | some cd => if truthyPVal cd then [CacheOp.placeUserData cd] else []
        | none => [])) := by
  unfold CustomEmoji.process_dict
  cases dictGet data "user" with
  | none => rfl
  | some cd => by_cases h : truthyPVal cd <;> simp [h]

/-- C9: payload decoding for `CustomEmoji` — a (truthy) nested `user`
sub-payload is first pushed into the collaborator cache via `place_user_data`
and the returned user identifier is stored under `creator_id`; with no (or a
falsy) `user` entry the stored creator identifier is `None` and no cache call
is made; a `roles` key is renamed to `role_ids`; and construction happens on
the processed dictionary filtered down to the declared field set, so every
key outside it is dropped. -/
theorem emoji_from_dict_processing (data : List (String × PVal))
    (cache : CacheState) :
    (∀ cd, dictGet data "user" = some cd → truthyPVal cd = true →
      (CustomEmoji.process_dict data cache).2.2 = [CacheOp.placeUserData cd] ∧
      dictGet (CustomEmoji.process_dict data cache).1 "creator_id" =
        some (PVal.vNat (place_user_data cache cd).1) ∧
      (CustomEmoji.process_dict data cache).2.1 = (place_user_data cache cd).2) ∧
    (∀ cd, dictGet data "user" = some cd → truthyPVal cd = false →
      (CustomEmoji.process_dict data cache).2.2 = [] ∧
      dictGet (CustomEmoji.process_dict data cache).1 "creator_id" =
        some PVal.vNone ∧
      (CustomEmoji.process_dict data cache).2.1 = cache) ∧
    (dictGet data "user" = none →
      (CustomEmoji.process_dict data cache).2.2 = [] ∧
      dictGet (CustomEmoji.process_dict data cache).1 "creator_id" =
        some PVal.vNone ∧
      (CustomEmoji.process_dict data cache).2.1 = cache) ∧
    dictGet (CustomEmoji.process_dict data cache).1 "roles" = none ∧
    (∀ v, dictGet data "roles" = some v →
      dictGet (CustomEmoji.process_dict data cache).1 "role_ids" = some v) ∧
    (∀ kv, kv ∈ filter_kwargs (CustomEmoji.process_dict data cache).1
        CustomEmoji.init_keys → kv.1 ∈ CustomEmoji.init_keys) ∧
    CustomEmoji.from_dict data cache =
      (buildEmoji (filter_kwargs (CustomEmoji.process_dict data cache).1
        CustomEmoji.init_keys),
       (CustomEmoji.process_dict data cache).2.1,
       (CustomEmoji.process_dict data cache).2.2) := by
  refine ⟨?_, ?_, ?_, ?_, ?_, ?_, rfl⟩
  · intro cd hget htr
    rw [process_dict_eq, hget]
    refine ⟨by simp [htr], ?_, by simp [htr]⟩
    dsimp only
    rw [if_pos htr, rolesStep_get_ne _ _ (by decide) (by decide),
      dictGet_dictSet_self]
  · intro cd hget htr
    rw [process_dict_eq, hget]
    refine ⟨by simp [htr], ?_, by simp [htr]⟩
    dsimp only
    rw [if_neg (by simp [htr]), rolesStep_get_ne _ _ (by decide) (by decide),
      dictGet_dictSet_self]
  · intro hget
    rw [process_dict_eq, hget]
    refine ⟨rfl, ?_, rfl⟩
    rw [rolesStep_get_ne _ _ (by decide) (by decide), dictGet_dictSet_self]
  · rw [process_dict_eq]
    exact rolesStep_get_roles _
  · intro v hv
    rw [process_dict_eq]
    exact rolesStep_get_role_ids _ v
      (by rw [dictGet_dictSet_ne _ _ _ _ (by decide),
            dictGet_dictRemove_ne _ _ _ (by decide)]
          exact hv)
  · intro kv hkv
    unfold filter_kwargs at hkv
    rw [List.mem_filter] at hkv
    simpa using hkv.2

/-- A raw wire payload for the C9 witness: nested `user`, a `roles` key and a
key outside the declared field set. -/
def dataW : List (String × PVal) :=
  [("id", PVal.vNat 9), ("name", PVal.vStr "emo"),
   ("user", PVal.vDict [("id", PVal.vNat 42)]),
   ("roles", PVal.vNatList [1, 2]), ("junk", PVal.vStr "x")]

/-- C9 witness: on the concrete payload the user sub-payload is placed into
the cache, its identifier becomes `creator_id`, and `roles` becomes
`role_ids`. -/
theorem emoji_from_dict_processing_witness :
    (CustomEmoji.process_dict dataW (CacheState.mk [])).2.2 =
      [CacheOp.placeUserData (PVal.vDict [("id", PVal.vNat 42)])] ∧
    dictGet (CustomEmoji.process_dict dataW (CacheState.mk [])).1 "creator_id" =
      some (PVal.vNat 42) ∧
    dictGet (CustomEmoji.process_dict dataW (CacheState.mk [])).1 "role_ids" =
      some (PVal.vNatList [1, 2]) :=
  ⟨((emoji_from_dict_processing dataW (CacheState.mk [])).1
      (PVal.vDict [("id", PVal.vNat 42)]) rfl rfl).1,
   ((emoji_from_dict_processing dataW (CacheState.mk [])).1
      (PVal.vDict [("id", PVal.vNat 42)]) rfl rfl).2.1,
   (emoji_from_dict_processing dataW (CacheState.mk [])).2.2.2.2.1
      (PVal.vNatList [1, 2]) rfl⟩

end DisSnek
